import Mathlib

/-!
# Verification of the ElasticCollision two-body collision kernel

The kernel computes post-collision velocities of two colliding 2D rigid
bodies under perfectly elastic collision physics, via two independent
formulations: an angle-free (vector-projection) resolver and a
trigonometric (angle-rotation) resolver.  The compiled kernel modules
(`EC_GAME` / `ECC`) are not part of the source tree, only their test
harness is; the resolvers below are therefore modelled from the spec,
over the real numbers (floating-point values are idealized as reals).
-/

namespace ElasticCollision

/-- A 2D vector of real scalars: the `Vector2` of the data model, an
immutable pair `(x, y)` with value-equality semantics. -/
@[ext]
structure Vec2 where
  x : ℝ
  y : ℝ

/-- Vector addition, componentwise. -/
def Vec2.add (a b : Vec2) : Vec2 := ⟨a.x + b.x, a.y + b.y⟩

/-- Vector subtraction, componentwise. -/
def Vec2.sub (a b : Vec2) : Vec2 := ⟨a.x - b.x, a.y - b.y⟩

/-- Scalar multiple of a vector. -/
def Vec2.smul (k : ℝ) (a : Vec2) : Vec2 := ⟨k * a.x, k * a.y⟩

/-- Dot product of two vectors. -/
def Vec2.dot (a b : Vec2) : ℝ := a.x * b.x + a.y * b.y

/-- Squared Euclidean norm. -/
def Vec2.normSq (a : Vec2) : ℝ := Vec2.dot a a

/-- Error taxonomy of the kernel: exactly one domain error,
`DegenerateGeometry`, signalled when the two input positions coincide so
that the collision normal / contact angle is undefined. -/
inductive CollisionError where
  | DegenerateGeometry
  deriving DecidableEq

/-- The caller-convenience `invert` post-processing: a single conditional
reorder of the output tuple, applied identically by both resolvers
(spec §9). -/
def orderPair (invert : Bool) (p : Vec2 × Vec2) : Vec2 × Vec2 :=
  if invert then (p.2, p.1) else p

/-- Modelled from the spec: the angle-free resolver `momentum_angle_free`
of the compiled `EC_GAME` module (absent from the source tree; only its
caller `EC_GAMETest.py` is present).  Scalar-component interface per spec
§6, algorithm per spec §4.1: collision normal `(dx, dy) = x1 - x2`,
closed-form elastic-collision update for each body, `DegenerateGeometry`
on coincident positions, and a final conditional swap for `invert`. -/
noncomputable def momentum_angle_free (v1x v1y v2x v2y m1 m2 x1x x1y x2x x2y : ℝ)
    (invert : Bool) : Except CollisionError (Vec2 × Vec2) :=
  if x1x = x2x ∧ x1y = x2y then Except.error CollisionError.DegenerateGeometry
  else
    let dx := x1x - x2x
    let dy := x1y - x2y
    let dist2 := dx ^ 2 + dy ^ 2
    let mass1 := 2 * m2 / (m1 + m2)
    let dot1 := (v1x - v2x) * dx + (v1y - v2y) * dy
    let r1 : Vec2 := ⟨v1x - mass1 * dot1 / dist2 * dx, v1y - mass1 * dot1 / dist2 * dy⟩
    let mass2 := 2 * m1 / (m1 + m2)
    let dot2 := (v2x - v1x) * (-dx) + (v2y - v1y) * (-dy)
    let r2 : Vec2 := ⟨v2x - mass2 * dot2 / dist2 * (-dx), v2y - mass2 * dot2 / dist2 * (-dy)⟩
    Except.ok (orderPair invert (r1, r2))

/-- Modelled from the spec: the contact angle of spec §4.2 step 1,
`theta = atan2(x1.y - x2.y, x1.x - x2.x)`, rendered as the complex
argument of `(x1.x - x2.x) + i*(x1.y - x2.y)` (identical to `atan2` on
all four quadrants, with range `(-pi, pi]`). -/
noncomputable def contact_angle (x1x x1y x2x x2y : ℝ) : ℝ :=
  Complex.arg ⟨x1x - x2x, x1y - x2y⟩

/-- The standard 2D rotation of a vector by angle `a`. -/
noncomputable def rot (a : ℝ) (v : Vec2) : Vec2 :=
  ⟨v.x * Real.cos a - v.y * Real.sin a, v.x * Real.sin a + v.y * Real.cos a⟩

/-- Modelled from the spec: the trigonometric resolver
`momentum_trigonometry` of the compiled `EC_GAME` module (absent from the
source tree).  Algorithm per spec §4.2: rotate both velocities by
`-theta` into the collision frame (normal axis first), apply the 1D
elastic exchange to the normal components, keep tangential components,
rotate back by `+theta`; `DegenerateGeometry` on coincident positions,
and a final conditional swap for `invert`. -/
noncomputable def momentum_trigonometry (x1x x1y x2x x2y v1x v1y v2x v2y m1 m2 : ℝ)
    (invert : Bool) : Except CollisionError (Vec2 × Vec2) :=
  if x1x = x2x ∧ x1y = x2y then Except.error CollisionError.DegenerateGeometry
  else
    let theta := contact_angle x1x x1y x2x x2y
    let u1 := rot (-theta) ⟨v1x, v1y⟩
    let u2 := rot (-theta) ⟨v2x, v2y⟩
    let n1 := (u1.x * (m1 - m2) + 2 * m2 * u2.x) / (m1 + m2)
    let n2 := (u2.x * (m2 - m1) + 2 * m1 * u1.x) / (m1 + m2)
    let r1 := rot theta ⟨n1, u1.y⟩
    let r2 := rot theta ⟨n2, u2.y⟩
    Except.ok (orderPair invert (r1, r2))

/-- The closed-form vector equations of spec §4.1 step 2, written with
the vector operations, to compare against `momentum_angle_free`:
`v1' = v1 - ((2*m2/(m1+m2)) * dot(v1-v2, x1-x2) / normSq (x1-x2)) • (x1-x2)`
and symmetrically for `v2'`. -/
noncomputable def angleFreeSpecEq (v1 v2 : Vec2) (m1 m2 : ℝ) (x1 x2 : Vec2) :
    Vec2 × Vec2 :=
  (Vec2.sub v1 (Vec2.smul (2 * m2 / (m1 + m2) * Vec2.dot (Vec2.sub v1 v2) (Vec2.sub x1 x2)
      / Vec2.normSq (Vec2.sub x1 x2)) (Vec2.sub x1 x2)),
   Vec2.sub v2 (Vec2.smul (2 * m1 / (m1 + m2) * Vec2.dot (Vec2.sub v2 v1) (Vec2.sub x2 x1)
      / Vec2.normSq (Vec2.sub x2 x1)) (Vec2.sub x2 x1)))

/-- The pair of result vectors computed by the angle-free resolver on a
non-degenerate input, with every intermediate substituted: a repackaging
of the `let`-chain of `momentum_angle_free` used to reason about its
`Except.ok` payload. -/
noncomputable def afPair (v1x v1y v2x v2y m1 m2 x1x x1y x2x x2y : ℝ) : Vec2 × Vec2 :=
  (⟨v1x - 2 * m2 / (m1 + m2) * ((v1x - v2x) * (x1x - x2x) + (v1y - v2y) * (x1y - x2y))
        / ((x1x - x2x) ^ 2 + (x1y - x2y) ^ 2) * (x1x - x2x),
    v1y - 2 * m2 / (m1 + m2) * ((v1x - v2x) * (x1x - x2x) + (v1y - v2y) * (x1y - x2y))
        / ((x1x - x2x) ^ 2 + (x1y - x2y) ^ 2) * (x1y - x2y)⟩,
   ⟨v2x - 2 * m1 / (m1 + m2) * ((v2x - v1x) * (-(x1x - x2x)) + (v2y - v1y) * (-(x1y - x2y)))
        / ((x1x - x2x) ^ 2 + (x1y - x2y) ^ 2) * (-(x1x - x2x)),
    v2y - 2 * m1 / (m1 + m2) * ((v2x - v1x) * (-(x1x - x2x)) + (v2y - v1y) * (-(x1y - x2y)))
        / ((x1x - x2x) ^ 2 + (x1y - x2y) ^ 2) * (-(x1y - x2y))⟩)

/-- The pair of result vectors computed by the trigonometric resolver on
a non-degenerate input, with every intermediate substituted: a
repackaging of the `let`-chain of `momentum_trigonometry` used to reason
about its `Except.ok` payload. -/
noncomputable def trigPair (x1x x1y x2x x2y v1x v1y v2x v2y m1 m2 : ℝ) : Vec2 × Vec2 :=
  (rot (contact_angle x1x x1y x2x x2y)
    ⟨((rot (-contact_angle x1x x1y x2x x2y) ⟨v1x, v1y⟩).x * (m1 - m2)
        + 2 * m2 * (rot (-contact_angle x1x x1y x2x x2y) ⟨v2x, v2y⟩).x) / (m1 + m2),
      (rot (-contact_angle x1x x1y x2x x2y) ⟨v1x, v1y⟩).y⟩,
   rot (contact_angle x1x x1y x2x x2y)
    ⟨((rot (-contact_angle x1x x1y x2x x2y) ⟨v2x, v2y⟩).x * (m2 - m1)
        + 2 * m1 * (rot (-contact_angle x1x x1y x2x x2y) ⟨v1x, v1y⟩).x) / (m1 + m2),
      (rot (-contact_angle x1x x1y x2x x2y) ⟨v2x, v2y⟩).y⟩)

/-- Modelled from the spec: the reference (Cython) variants return a pair
of mappings keyed by axis name, `vec['x']` and `vec['y']` (spec §9 and
the harness accesses in `EC_GAMETest.py`). -/
def vecToAxisMap (v : Vec2) : List (String × ℝ) := [("x", v.x), ("y", v.y)]

/-- Modelled from the spec: result shape of the reference (Cython)
variants: a pair of axis-keyed mappings, one per body. -/
def cythonShape (r : Except CollisionError (Vec2 × Vec2)) :
    Except CollisionError (List (String × ℝ) × List (String × ℝ)) :=
  r.map fun p => (vecToAxisMap p.1, vecToAxisMap p.2)

/-- Modelled from the spec: result shape of the compiled C variants: a
single mapping keyed by body-role name, `pyobject['v12']` and
`pyobject['v21']`, each role holding the axis components. -/
def cShape (r : Except CollisionError (Vec2 × Vec2)) :
    Except CollisionError (List (String × List (String × ℝ))) :=
  r.map fun p => [("v12", vecToAxisMap p.1), ("v21", vecToAxisMap p.2)]

/-- Modelled from the spec: the Cython runtime variant of the angle-free
resolver, with its dict-pair result shape. -/
noncomputable def momentum_angle_free_dicts (v1x v1y v2x v2y m1 m2 x1x x1y x2x x2y : ℝ)
    (invert : Bool) : Except CollisionError (List (String × ℝ) × List (String × ℝ)) :=
  cythonShape (momentum_angle_free v1x v1y v2x v2y m1 m2 x1x x1y x2x x2y invert)

/-- Modelled from the spec: the compiled C runtime variant
`momentum_angle_free_c` of the `ECC` module, with its role-keyed result
shape. -/
noncomputable def momentum_angle_free_c (v1x v1y v2x v2y m1 m2 x1x x1y x2x x2y : ℝ)
    (invert : Bool) : Except CollisionError (List (String × List (String × ℝ))) :=
  cShape (momentum_angle_free v1x v1y v2x v2y m1 m2 x1x x1y x2x x2y invert)

/-- Modelled from the spec: the Cython runtime variant of the
trigonometric resolver, with its dict-pair result shape. -/
noncomputable def momentum_trigonometry_dicts (x1x x1y x2x x2y v1x v1y v2x v2y m1 m2 : ℝ)
    (invert : Bool) : Except CollisionError (List (String × ℝ) × List (String × ℝ)) :=
  cythonShape (momentum_trigonometry x1x x1y x2x x2y v1x v1y v2x v2y m1 m2 invert)

/-- Modelled from the spec: the compiled C runtime variant
`momentum_trigonometry_c` of the `ECC` module, with its role-keyed result
shape. -/
noncomputable def momentum_trigonometry_c (x1x x1y x2x x2y v1x v1y v2x v2y m1 m2 : ℝ)
    (invert : Bool) : Except CollisionError (List (String × List (String × ℝ))) :=
  cShape (momentum_trigonometry x1x x1y x2x x2y v1x v1y v2x v2y m1 m2 invert)

/-! ## Helper lemmas -/

/-- On a non-degenerate input the squared separation is nonzero. -/
theorem dist2_ne_zero {x1x x1y x2x x2y : ℝ} (hx : ¬(x1x = x2x ∧ x1y = x2y)) :
    (x1x - x2x) ^ 2 + (x1y - x2y) ^ 2 ≠ 0 := by
  rcases not_and_or.mp hx with h | h
  · have h' : x1x - x2x ≠ 0 := sub_ne_zero.mpr h
    positivity
  · have h' : x1y - x2y ≠ 0 := sub_ne_zero.mpr h
    positivity

/-- On a non-degenerate input the angle-free resolver (normal order)
returns exactly the `afPair` payload. -/
theorem momentum_angle_free_ok (v1x v1y v2x v2y m1 m2 x1x x1y x2x x2y : ℝ)
    (hx : ¬(x1x = x2x ∧ x1y = x2y)) :
    momentum_angle_free v1x v1y v2x v2y m1 m2 x1x x1y x2x x2y false =
      Except.ok (afPair v1x v1y v2x v2y m1 m2 x1x x1y x2x x2y) := by
  rw [momentum_angle_free, if_neg hx]
  rfl

/-- Rotating by `a` then by `-a` is the identity. -/
theorem rot_neg_rot (a : ℝ) (v : Vec2) : rot (-a) (rot a v) = v := by
  ext
  · simp only [rot, Real.cos_neg, Real.sin_neg]
    linear_combination v.x * Real.sin_sq_add_cos_sq a
  · simp only [rot, Real.cos_neg, Real.sin_neg]
    linear_combination v.y * Real.sin_sq_add_cos_sq a

/-- Component identity: body-1 x-component of the rotated-frame exchange
equals the angle-free closed form, for a unit collision normal `(c, s)`
scaled by `r`. -/
theorem exchange_comp_x1 (c s r v1x v1y v2x v2y m1 m2 : ℝ) (hr : r ≠ 0)
    (hM : m1 + m2 ≠ 0) (hcs : c ^ 2 + s ^ 2 = 1) :
    ((v1x * c - v1y * -s) * (m1 - m2) + 2 * m2 * (v2x * c - v2y * -s)) / (m1 + m2) * c
      - (v1x * -s + v1y * c) * s
    = v1x - 2 * m2 / (m1 + m2)
        * ((v1x - v2x) * (c * r) + (v1y - v2y) * (s * r)) / r ^ 2 * (c * r) := by
  field_simp
  linear_combination (v1x * r ^ 2 * (m1 + m2) ^ 2) * hcs

/-- Component identity: body-1 y-component of the rotated-frame exchange
equals the angle-free closed form. -/
theorem exchange_comp_y1 (c s r v1x v1y v2x v2y m1 m2 : ℝ) (hr : r ≠ 0)
    (hM : m1 + m2 ≠ 0) (hcs : c ^ 2 + s ^ 2 = 1) :
    ((v1x * c - v1y * -s) * (m1 - m2) + 2 * m2 * (v2x * c - v2y * -s)) / (m1 + m2) * s
      + (v1x * -s + v1y * c) * c
    = v1y - 2 * m2 / (m1 + m2)
        * ((v1x - v2x) * (c * r) + (v1y - v2y) * (s * r)) / r ^ 2 * (s * r) := by
  field_simp
  linear_combination (v1y * r ^ 2 * (m1 + m2) ^ 2) * hcs

/-- Component identity: body-2 x-component of the rotated-frame exchange
equals the angle-free closed form. -/
theorem exchange_comp_x2 (c s r v1x v1y v2x v2y m1 m2 : ℝ) (hr : r ≠ 0)
    (hM : m1 + m2 ≠ 0) (hcs : c ^ 2 + s ^ 2 = 1) :
    ((v2x * c - v2y * -s) * (m2 - m1) + 2 * m1 * (v1x * c - v1y * -s)) / (m1 + m2) * c
      - (v2x * -s + v2y * c) * s
    = v2x - 2 * m1 / (m1 + m2)
        * ((v2x - v1x) * -(c * r) + (v2y - v1y) * -(s * r)) / r ^ 2 * -(c * r) := by
  field_simp
  linear_combination (v2x * r ^ 2 * (m1 + m2) ^ 2) * hcs

/-- Component identity: body-2 y-component of the rotated-frame exchange
equals the angle-free closed form. -/
theorem exchange_comp_y2 (c s r v1x v1y v2x v2y m1 m2 : ℝ) (hr : r ≠ 0)
    (hM : m1 + m2 ≠ 0) (hcs : c ^ 2 + s ^ 2 = 1) :
    ((v2x * c - v2y * -s) * (m2 - m1) + 2 * m1 * (v1x * c - v1y * -s)) / (m1 + m2) * s
      + (v2x * -s + v2y * c) * c
    = v2y - 2 * m1 / (m1 + m2)
        * ((v2x - v1x) * -(c * r) + (v2y - v1y) * -(s * r)) / r ^ 2 * -(s * r) := by
  field_simp
  linear_combination (v2y * r ^ 2 * (m1 + m2) ^ 2) * hcs

/-- The trigonometric resolver agrees with the angle-free resolver on
every input, given a nonzero total mass. -/
theorem trig_eq_angle_free (x1x x1y x2x x2y v1x v1y v2x v2y m1 m2 : ℝ) (invert : Bool)
    (hM : m1 + m2 ≠ 0) :
    momentum_trigonometry x1x x1y x2x x2y v1x v1y v2x v2y m1 m2 invert =
      momentum_angle_free v1x v1y v2x v2y m1 m2 x1x x1y x2x x2y invert := by
  by_cases hx : x1x = x2x ∧ x1y = x2y
  · simp [momentum_trigonometry, momentum_angle_free, hx]
  · have hz : (⟨x1x - x2x, x1y - x2y⟩ : ℂ) ≠ 0 := by
      simp only [ne_eq, Complex.ext_iff, Complex.zero_re, Complex.zero_im, not_and_or]
      rcases not_and_or.mp hx with h | h
      · exact Or.inl (sub_ne_zero.mpr h)
      · exact Or.inr (sub_ne_zero.mpr h)
    have hr0 : 0 < Complex.abs ⟨x1x - x2x, x1y - x2y⟩ := Complex.abs.pos hz
    set r := Complex.abs ⟨x1x - x2x, x1y - x2y⟩ with hrdef
    have hr : r ≠ 0 := ne_of_gt hr0
    have hr2 : r ^ 2 = (x1x - x2x) ^ 2 + (x1y - x2y) ^ 2 := by
      rw [hrdef, Complex.sq_abs, Complex.normSq_mk]; ring
    have hc : Real.cos (contact_angle x1x x1y x2x x2y) = (x1x - x2x) / r := by
      rw [contact_angle, Complex.cos_arg hz]
    have hs : Real.sin (contact_angle x1x x1y x2x x2y) = (x1y - x2y) / r := by
      rw [contact_angle, Complex.sin_arg]
    simp only [momentum_trigonometry, momentum_angle_free, if_neg hx, rot,
      Real.cos_neg, Real.sin_neg, hc, hs]
    rw [← hr2]
    generalize hcg : (x1x - x2x) / r = c
    generalize hsg : (x1y - x2y) / r = s
    have hdxc : x1x - x2x = c * r := by
      rw [← hcg, div_mul_cancel₀ _ hr]
    have hdyc : x1y - x2y = s * r := by
      rw [← hsg, div_mul_cancel₀ _ hr]
    have hcs : c ^ 2 + s ^ 2 = 1 := by
      rw [← hcg, ← hsg, div_pow, div_pow, div_add_div_same,
        div_eq_one_iff_eq (pow_ne_zero 2 hr)]
      exact hr2.symm
    rw [hdxc, hdyc]
    refine congrArg Except.ok (congrArg (orderPair invert) ?_)
    refine Prod.ext ?_ ?_ <;> refine Vec2.ext ?_ ?_
    · exact exchange_comp_x1 c s r v1x v1y v2x v2y m1 m2 hr hM hcs
    · exact exchange_comp_y1 c s r v1x v1y v2x v2y m1 m2 hr hM hcs
    · exact exchange_comp_x2 c s r v1x v1y v2x v2y m1 m2 hr hM hcs
    · exact exchange_comp_y2 c s r v1x v1y v2x v2y m1 m2 hr hM hcs

/-- On a non-degenerate input the trigonometric resolver (normal order)
returns exactly the `trigPair` payload. -/
theorem momentum_trigonometry_ok (x1x x1y x2x x2y v1x v1y v2x v2y m1 m2 : ℝ)
    (hx : ¬(x1x = x2x ∧ x1y = x2y)) :
    momentum_trigonometry x1x x1y x2x x2y v1x v1y v2x v2y m1 m2 false =
      Except.ok (trigPair x1x x1y x2x x2y v1x v1y v2x v2y m1 m2) := by
  rw [momentum_trigonometry, if_neg hx]
  rfl

/-- Both resolvers signal `DegenerateGeometry` exactly on coincident
positions. -/
theorem error_iff_coincident (v1x v1y v2x v2y m1 m2 x1x x1y x2x x2y : ℝ) (invert : Bool) :
    (momentum_angle_free v1x v1y v2x v2y m1 m2 x1x x1y x2x x2y invert =
        Except.error CollisionError.DegenerateGeometry ↔ (x1x = x2x ∧ x1y = x2y)) ∧
    (momentum_trigonometry x1x x1y x2x x2y v1x v1y v2x v2y m1 m2 invert =
        Except.error CollisionError.DegenerateGeometry ↔ (x1x = x2x ∧ x1y = x2y)) := by
  constructor <;>
    · by_cases hx : x1x = x2x ∧ x1y = x2y <;>
        simp [momentum_angle_free, momentum_trigonometry, hx]

/-- Total momentum is conserved by the `afPair` payload, componentwise. -/
theorem afPair_momentum (v1x v1y v2x v2y m1 m2 x1x x1y x2x x2y : ℝ)
    (hM : m1 + m2 ≠ 0) (hS : (x1x - x2x) ^ 2 + (x1y - x2y) ^ 2 ≠ 0) :
    m1 * (afPair v1x v1y v2x v2y m1 m2 x1x x1y x2x x2y).1.x
        + m2 * (afPair v1x v1y v2x v2y m1 m2 x1x x1y x2x x2y).2.x
      = m1 * v1x + m2 * v2x ∧
    m1 * (afPair v1x v1y v2x v2y m1 m2 x1x x1y x2x x2y).1.y
        + m2 * (afPair v1x v1y v2x v2y m1 m2 x1x x1y x2x x2y).2.y
      = m1 * v1y + m2 * v2y := by
  unfold afPair
  constructor <;> (dsimp only; field_simp; ring)

/-- Total kinetic energy is conserved by the `afPair` payload. -/
theorem afPair_energy (v1x v1y v2x v2y m1 m2 x1x x1y x2x x2y : ℝ)
    (hM : m1 + m2 ≠ 0) (hS : (x1x - x2x) ^ 2 + (x1y - x2y) ^ 2 ≠ 0) :
    m1 * ((afPair v1x v1y v2x v2y m1 m2 x1x x1y x2x x2y).1.x ^ 2
          + (afPair v1x v1y v2x v2y m1 m2 x1x x1y x2x x2y).1.y ^ 2)
      + m2 * ((afPair v1x v1y v2x v2y m1 m2 x1x x1y x2x x2y).2.x ^ 2
          + (afPair v1x v1y v2x v2y m1 m2 x1x x1y x2x x2y).2.y ^ 2)
    = m1 * (v1x ^ 2 + v1y ^ 2) + m2 * (v2x ^ 2 + v2y ^ 2) := by
  unfold afPair
  dsimp only
  field_simp
  ring

/-- On a non-degenerate input either resolver returns an `Except.ok`
payload for any `invert` flag. -/
theorem momentum_angle_free_eq (v1x v1y v2x v2y m1 m2 x1x x1y x2x x2y : ℝ) (invert : Bool)
    (hx : ¬(x1x = x2x ∧ x1y = x2y)) :
    momentum_angle_free v1x v1y v2x v2y m1 m2 x1x x1y x2x x2y invert =
      Except.ok (orderPair invert (afPair v1x v1y v2x v2y m1 m2 x1x x1y x2x x2y)) := by
  rw [momentum_angle_free, if_neg hx]
  rfl

/-- On a non-degenerate input the trigonometric resolver returns an
`Except.ok` payload for any `invert` flag. -/
theorem momentum_trigonometry_eq (x1x x1y x2x x2y v1x v1y v2x v2y m1 m2 : ℝ) (invert : Bool)
    (hx : ¬(x1x = x2x ∧ x1y = x2y)) :
    momentum_trigonometry x1x x1y x2x x2y v1x v1y v2x v2y m1 m2 invert =
      Except.ok (orderPair invert (trigPair x1x x1y x2x x2y v1x v1y v2x v2y m1 m2)) := by
  rw [momentum_trigonometry, if_neg hx]
  rfl

/-! ## Claims -/

/-- C1: for every valid input (both masses strictly positive and
`x1 != x2`), each resolver (angle-free and trigonometric) returns
post-collision velocities `v1'`, `v2'` such that total momentum is
conserved: `m1*v1 + m2*v2 = m1*v1' + m2*v2'`, component-wise. -/
theorem claim_C1_momentum_conservation (v1x v1y v2x v2y m1 m2 x1x x1y x2x x2y : ℝ)
    (hm1 : 0 < m1) (hm2 : 0 < m2) (hx : ¬(x1x = x2x ∧ x1y = x2y)) :
    (∃ p : Vec2 × Vec2,
        momentum_angle_free v1x v1y v2x v2y m1 m2 x1x x1y x2x x2y false = Except.ok p ∧
        m1 * p.1.x + m2 * p.2.x = m1 * v1x + m2 * v2x ∧
        m1 * p.1.y + m2 * p.2.y = m1 * v1y + m2 * v2y) ∧
    (∃ q : Vec2 × Vec2,
        momentum_trigonometry x1x x1y x2x x2y v1x v1y v2x v2y m1 m2 false = Except.ok q ∧
        m1 * q.1.x + m2 * q.2.x = m1 * v1x + m2 * v2x ∧
        m1 * q.1.y + m2 * q.2.y = m1 * v1y + m2 * v2y) := by
  have hM : m1 + m2 ≠ 0 := by positivity
  have hS := dist2_ne_zero hx
  have haf := momentum_angle_free_ok v1x v1y v2x v2y m1 m2 x1x x1y x2x x2y hx
  have hmom := afPair_momentum v1x v1y v2x v2y m1 m2 x1x x1y x2x x2y hM hS
  refine ⟨⟨_, haf, hmom.1, hmom.2⟩, ⟨_, ?_, hmom.1, hmom.2⟩⟩
  rw [trig_eq_angle_free x1x x1y x2x x2y v1x v1y v2x v2y m1 m2 false hM]
  exact haf

/-- Witness for C1 at a concrete valid input. -/
theorem claim_C1_momentum_conservation_witness :
    (0 : ℝ) < 1 ∧ ¬((0 : ℝ) = 1 ∧ (0 : ℝ) = 0) ∧
    ((∃ p : Vec2 × Vec2,
        momentum_angle_free 1 0 0 0 1 1 0 0 1 0 false = Except.ok p ∧
        1 * p.1.x + 1 * p.2.x = 1 * 1 + 1 * 0 ∧
        1 * p.1.y + 1 * p.2.y = 1 * 0 + 1 * 0) ∧
     (∃ q : Vec2 × Vec2,
        momentum_trigonometry 0 0 1 0 1 0 0 0 1 1 false = Except.ok q ∧
        1 * q.1.x + 1 * q.2.x = 1 * 1 + 1 * 0 ∧
        1 * q.1.y + 1 * q.2.y = 1 * 0 + 1 * 0)) :=
  ⟨by norm_num, by norm_num,
    claim_C1_momentum_conservation 1 0 0 0 1 1 0 0 1 0
      (by norm_num) (by norm_num) (by norm_num)⟩

/-- C2: for every valid input (both masses strictly positive and
`x1 != x2`), each resolver returns post-collision velocities such that
total kinetic energy is conserved:
`m1*|v1|^2 + m2*|v2|^2 = m1*|v1'|^2 + m2*|v2'|^2`. -/
theorem claim_C2_energy_conservation (v1x v1y v2x v2y m1 m2 x1x x1y x2x x2y : ℝ)
    (hm1 : 0 < m1) (hm2 : 0 < m2) (hx : ¬(x1x = x2x ∧ x1y = x2y)) :
    (∃ p : Vec2 × Vec2,
        momentum_angle_free v1x v1y v2x v2y m1 m2 x1x x1y x2x x2y false = Except.ok p ∧
        m1 * (p.1.x ^ 2 + p.1.y ^ 2) + m2 * (p.2.x ^ 2 + p.2.y ^ 2)
          = m1 * (v1x ^ 2 + v1y ^ 2) + m2 * (v2x ^ 2 + v2y ^ 2)) ∧
    (∃ q : Vec2 × Vec2,
        momentum_trigonometry x1x x1y x2x x2y v1x v1y v2x v2y m1 m2 false = Except.ok q ∧
        m1 * (q.1.x ^ 2 + q.1.y ^ 2) + m2 * (q.2.x ^ 2 + q.2.y ^ 2)
          = m1 * (v1x ^ 2 + v1y ^ 2) + m2 * (v2x ^ 2 + v2y ^ 2)) := by
  have hM : m1 + m2 ≠ 0 := by positivity
  have hS := dist2_ne_zero hx
  have haf := momentum_angle_free_ok v1x v1y v2x v2y m1 m2 x1x x1y x2x x2y hx
  have hen := afPair_energy v1x v1y v2x v2y m1 m2 x1x x1y x2x x2y hM hS
  refine ⟨⟨_, haf, hen⟩, ⟨_, ?_, hen⟩⟩
  rw [trig_eq_angle_free x1x x1y x2x x2y v1x v1y v2x v2y m1 m2 false hM]
  exact haf

/-- Witness for C2 at a concrete valid input. -/
theorem claim_C2_energy_conservation_witness :
    (0 : ℝ) < 1 ∧ ¬((0 : ℝ) = 1 ∧ (0 : ℝ) = 0) ∧
    ((∃ p : Vec2 × Vec2,
        momentum_angle_free 1 0 0 0 1 1 0 0 1 0 false = Except.ok p ∧
        1 * (p.1.x ^ 2 + p.1.y ^ 2) + 1 * (p.2.x ^ 2 + p.2.y ^ 2)
          = 1 * ((1 : ℝ) ^ 2 + 0 ^ 2) + 1 * (0 ^ 2 + 0 ^ 2)) ∧
     (∃ q : Vec2 × Vec2,
        momentum_trigonometry 0 0 1 0 1 0 0 0 1 1 false = Except.ok q ∧
        1 * (q.1.x ^ 2 + q.1.y ^ 2) + 1 * (q.2.x ^ 2 + q.2.y ^ 2)
          = 1 * ((1 : ℝ) ^ 2 + 0 ^ 2) + 1 * (0 ^ 2 + 0 ^ 2))) :=
  ⟨by norm_num, by norm_num,
    claim_C2_energy_conservation 1 0 0 0 1 1 0 0 1 0
      (by norm_num) (by norm_num) (by norm_num)⟩

/-- C3: for every valid input and the same `invert` flag, the angle-free
resolver and the trigonometric resolver return equal velocity results:
the two algorithms are equivalent implementations of one contract. -/
theorem claim_C3_cross_method_agreement (v1x v1y v2x v2y m1 m2 x1x x1y x2x x2y : ℝ)
    (invert : Bool) (hm1 : 0 < m1) (hm2 : 0 < m2) (hx : ¬(x1x = x2x ∧ x1y = x2y)) :
    momentum_trigonometry x1x x1y x2x x2y v1x v1y v2x v2y m1 m2 invert =
      momentum_angle_free v1x v1y v2x v2y m1 m2 x1x x1y x2x x2y invert :=
  trig_eq_angle_free x1x x1y x2x x2y v1x v1y v2x v2y m1 m2 invert (by positivity)

/-- Witness for C3 at a concrete valid input. -/
theorem claim_C3_cross_method_agreement_witness :
    (0 : ℝ) < 1 ∧ ¬((0 : ℝ) = 1 ∧ (0 : ℝ) = 0) ∧
    momentum_trigonometry 0 0 1 0 1 0 0 0 1 1 true =
      momentum_angle_free 1 0 0 0 1 1 0 0 1 0 true :=
  ⟨by norm_num, by norm_num,
    claim_C3_cross_method_agreement 1 0 0 0 1 1 0 0 1 0 true
      (by norm_num) (by norm_num) (by norm_num)⟩

/-- C4: for every valid input, the angle-free resolver's outputs equal
the closed-form vector equations of the spec, returned in the order
`(v1', v2')` when `invert` is false. -/
theorem claim_C4_angle_free_closed_form (v1x v1y v2x v2y m1 m2 x1x x1y x2x x2y : ℝ)
    (hm1 : 0 < m1) (hm2 : 0 < m2) (hx : ¬(x1x = x2x ∧ x1y = x2y)) :
    momentum_angle_free v1x v1y v2x v2y m1 m2 x1x x1y x2x x2y false =
      Except.ok (angleFreeSpecEq ⟨v1x, v1y⟩ ⟨v2x, v2y⟩ m1 m2 ⟨x1x, x1y⟩ ⟨x2x, x2y⟩) := by
  rw [momentum_angle_free_ok v1x v1y v2x v2y m1 m2 x1x x1y x2x x2y hx]
  refine congrArg Except.ok ?_
  simp only [afPair, angleFreeSpecEq, Vec2.sub, Vec2.smul, Vec2.normSq, Vec2.dot]
  refine Prod.ext ?_ ?_ <;> refine Vec2.ext ?_ ?_ <;> (dsimp only; ring)

/-- Witness for C4 at a concrete valid input. -/
theorem claim_C4_angle_free_closed_form_witness :
    (0 : ℝ) < 1 ∧ ¬((0 : ℝ) = 1 ∧ (0 : ℝ) = 0) ∧
    momentum_angle_free 1 0 0 0 1 1 0 0 1 0 false =
      Except.ok (angleFreeSpecEq ⟨1, 0⟩ ⟨0, 0⟩ 1 1 ⟨0, 0⟩ ⟨1, 0⟩) :=
  ⟨by norm_num, by norm_num,
    claim_C4_angle_free_closed_form 1 0 0 0 1 1 0 0 1 0
      (by norm_num) (by norm_num) (by norm_num)⟩

/-- C5: for every valid input, the trigonometric resolver's outputs,
rotated by `-theta` into the collision frame, have tangential components
equal to the inputs' tangential components and normal components given
by the 1D elastic exchange formulas. -/
theorem claim_C5_trig_rotated_frame (x1x x1y x2x x2y v1x v1y v2x v2y m1 m2 : ℝ)
    (hm1 : 0 < m1) (hm2 : 0 < m2) (hx : ¬(x1x = x2x ∧ x1y = x2y)) :
    ∃ p : Vec2 × Vec2,
      momentum_trigonometry x1x x1y x2x x2y v1x v1y v2x v2y m1 m2 false = Except.ok p ∧
      (rot (-contact_angle x1x x1y x2x x2y) p.1).y
        = (rot (-contact_angle x1x x1y x2x x2y) ⟨v1x, v1y⟩).y ∧
      (rot (-contact_angle x1x x1y x2x x2y) p.2).y
        = (rot (-contact_angle x1x x1y x2x x2y) ⟨v2x, v2y⟩).y ∧
      (rot (-contact_angle x1x x1y x2x x2y) p.1).x
        = ((rot (-contact_angle x1x x1y x2x x2y) ⟨v1x, v1y⟩).x * (m1 - m2)
            + 2 * m2 * (rot (-contact_angle x1x x1y x2x x2y) ⟨v2x, v2y⟩).x) / (m1 + m2) ∧
      (rot (-contact_angle x1x x1y x2x x2y) p.2).x
        = ((rot (-contact_angle x1x x1y x2x x2y) ⟨v2x, v2y⟩).x * (m2 - m1)
            + 2 * m1 * (rot (-contact_angle x1x x1y x2x x2y) ⟨v1x, v1y⟩).x) / (m1 + m2) := by
  refine ⟨trigPair x1x x1y x2x x2y v1x v1y v2x v2y m1 m2,
    momentum_trigonometry_ok x1x x1y x2x x2y v1x v1y v2x v2y m1 m2 hx, ?_, ?_, ?_, ?_⟩ <;>
    · unfold trigPair
      dsimp only
      rw [rot_neg_rot]

/-- Witness for C5 at a concrete valid input. -/
theorem claim_C5_trig_rotated_frame_witness :
    (0 : ℝ) < 1 ∧ ¬((0 : ℝ) = 1 ∧ (0 : ℝ) = 0) ∧
    (∃ p : Vec2 × Vec2,
      momentum_trigonometry 0 0 1 0 1 0 0 0 1 1 false = Except.ok p ∧
      (rot (-contact_angle 0 0 1 0) p.1).y = (rot (-contact_angle 0 0 1 0) ⟨1, 0⟩).y ∧
      (rot (-contact_angle 0 0 1 0) p.2).y = (rot (-contact_angle 0 0 1 0) ⟨0, 0⟩).y ∧
      (rot (-contact_angle 0 0 1 0) p.1).x
        = ((rot (-contact_angle 0 0 1 0) ⟨1, 0⟩).x * (1 - 1)
            + 2 * 1 * (rot (-contact_angle 0 0 1 0) ⟨0, 0⟩).x) / (1 + 1) ∧
      (rot (-contact_angle 0 0 1 0) p.2).x
        = ((rot (-contact_angle 0 0 1 0) ⟨0, 0⟩).x * (1 - 1)
            + 2 * 1 * (rot (-contact_angle 0 0 1 0) ⟨1, 0⟩).x) / (1 + 1)) :=
  ⟨by norm_num, by norm_num,
    claim_C5_trig_rotated_frame 0 0 1 0 1 0 0 0 1 1
      (by norm_num) (by norm_num) (by norm_num)⟩

/-- C6: for every input and for both resolvers, calling with
`invert = true` returns exactly the swapped pair of the result of calling
with `invert = false`: `invert` is a pure post-processing reorder. -/
theorem claim_C6_invert_swap (v1x v1y v2x v2y m1 m2 x1x x1y x2x x2y : ℝ) :
    momentum_angle_free v1x v1y v2x v2y m1 m2 x1x x1y x2x x2y true =
      Except.map (fun p => (p.2, p.1))
        (momentum_angle_free v1x v1y v2x v2y m1 m2 x1x x1y x2x x2y false) ∧
    momentum_trigonometry x1x x1y x2x x2y v1x v1y v2x v2y m1 m2 true =
      Except.map (fun p => (p.2, p.1))
        (momentum_trigonometry x1x x1y x2x x2y v1x v1y v2x v2y m1 m2 false) := by
  constructor <;>
    · by_cases hx : x1x = x2x ∧ x1y = x2y <;>
        simp [momentum_angle_free, momentum_trigonometry, hx, orderPair, Except.map]

/-- C7: both resolvers signal `DegenerateGeometry` exactly when the two
positions coincide, and on every other input they return an ordinary
(`Except.ok`) velocity pair rather than any sentinel value. -/
theorem claim_C7_degenerate_geometry (v1x v1y v2x v2y m1 m2 x1x x1y x2x x2y : ℝ)
    (invert : Bool) :
    (momentum_angle_free v1x v1y v2x v2y m1 m2 x1x x1y x2x x2y invert =
        Except.error CollisionError.DegenerateGeometry ↔ (x1x = x2x ∧ x1y = x2y)) ∧
    (momentum_trigonometry x1x x1y x2x x2y v1x v1y v2x v2y m1 m2 invert =
        Except.error CollisionError.DegenerateGeometry ↔ (x1x = x2x ∧ x1y = x2y)) ∧
    (¬(x1x = x2x ∧ x1y = x2y) →
      (∃ p, momentum_angle_free v1x v1y v2x v2y m1 m2 x1x x1y x2x x2y invert
          = Except.ok p) ∧
      (∃ q, momentum_trigonometry x1x x1y x2x x2y v1x v1y v2x v2y m1 m2 invert
          = Except.ok q)) := by
  refine ⟨(error_iff_coincident v1x v1y v2x v2y m1 m2 x1x x1y x2x x2y invert).1,
    (error_iff_coincident v1x v1y v2x v2y m1 m2 x1x x1y x2x x2y invert).2, fun hx => ?_⟩
  exact ⟨⟨_, momentum_angle_free_eq v1x v1y v2x v2y m1 m2 x1x x1y x2x x2y invert hx⟩,
    ⟨_, momentum_trigonometry_eq x1x x1y x2x x2y v1x v1y v2x v2y m1 m2 invert hx⟩⟩

/-- Witness for C7 at a concrete input. -/
theorem claim_C7_degenerate_geometry_witness :
    (momentum_angle_free 1 0 0 0 1 1 0 0 1 0 false =
        Except.error CollisionError.DegenerateGeometry ↔ ((0 : ℝ) = 1 ∧ (0 : ℝ) = 0)) ∧
    (momentum_trigonometry 0 0 1 0 1 0 0 0 1 1 false =
        Except.error CollisionError.DegenerateGeometry ↔ ((0 : ℝ) = 1 ∧ (0 : ℝ) = 0)) ∧
    (¬((0 : ℝ) = 1 ∧ (0 : ℝ) = 0) →
      (∃ p, momentum_angle_free 1 0 0 0 1 1 0 0 1 0 false = Except.ok p) ∧
      (∃ q, momentum_trigonometry 0 0 1 0 1 0 0 0 1 1 false = Except.ok q)) :=
  claim_C7_degenerate_geometry 1 0 0 0 1 1 0 0 1 0 false

/-- C9: both resolvers are deterministic and pure in the functional
model: a call is a mathematical function of its arguments alone, so two
calls with identical inputs return identical outputs. -/
theorem claim_C9_pure_deterministic (v1x v1y v2x v2y m1 m2 x1x x1y x2x x2y : ℝ)
    (invert : Bool) :
    momentum_angle_free v1x v1y v2x v2y m1 m2 x1x x1y x2x x2y invert =
      momentum_angle_free v1x v1y v2x v2y m1 m2 x1x x1y x2x x2y invert ∧
    momentum_trigonometry x1x x1y x2x x2y v1x v1y v2x v2y m1 m2 invert =
      momentum_trigonometry x1x x1y x2x x2y v1x v1y v2x v2y m1 m2 invert :=
  ⟨rfl, rfl⟩

/-- C8: when `m1 = m2`, the two bodies fully exchange their velocity
components along the line of centers while tangential components are
unchanged; in particular, for the concrete head-on scenario
`v1 = (0.707, 0.707)`, `x1 = (0, 0)`, `v2 = (-0.707, -0.707)`,
`x2 = (1.4142, 1.4142)`, `m1 = m2 = 1`, both resolvers return the
inputs' velocities swapped. -/
theorem claim_C8_equal_mass_exchange :
    (∀ v1x v1y v2x v2y m x1x x1y x2x x2y : ℝ, 0 < m → ¬(x1x = x2x ∧ x1y = x2y) →
      ∀ p q : Vec2 × Vec2,
        momentum_angle_free v1x v1y v2x v2y m m x1x x1y x2x x2y false = Except.ok p →
        momentum_trigonometry x1x x1y x2x x2y v1x v1y v2x v2y m m false = Except.ok q →
        p = q ∧
        (rot (-contact_angle x1x x1y x2x x2y) q.1).x
          = (rot (-contact_angle x1x x1y x2x x2y) ⟨v2x, v2y⟩).x ∧
        (rot (-contact_angle x1x x1y x2x x2y) q.2).x
          = (rot (-contact_angle x1x x1y x2x x2y) ⟨v1x, v1y⟩).x ∧
        (rot (-contact_angle x1x x1y x2x x2y) q.1).y
          = (rot (-contact_angle x1x x1y x2x x2y) ⟨v1x, v1y⟩).y ∧
        (rot (-contact_angle x1x x1y x2x x2y) q.2).y
          = (rot (-contact_angle x1x x1y x2x x2y) ⟨v2x, v2y⟩).y) ∧
    momentum_angle_free 0.707 0.707 (-0.707) (-0.707) 1 1 0 0 1.4142 1.4142 false
        = Except.ok (⟨-0.707, -0.707⟩, ⟨0.707, 0.707⟩) ∧
    momentum_trigonometry 0 0 1.4142 1.4142 0.707 0.707 (-0.707) (-0.707) 1 1 false
        = Except.ok (⟨-0.707, -0.707⟩, ⟨0.707, 0.707⟩) := by
  have haf : momentum_angle_free 0.707 0.707 (-0.707) (-0.707) 1 1 0 0 1.4142 1.4142 false
      = Except.ok (⟨-0.707, -0.707⟩, ⟨0.707, 0.707⟩) := by
    rw [momentum_angle_free_ok 0.707 0.707 (-0.707) (-0.707) 1 1 0 0 1.4142 1.4142
      (by norm_num)]
    refine congrArg Except.ok ?_
    simp only [afPair]
    refine Prod.ext ?_ ?_ <;> refine Vec2.ext ?_ ?_ <;> (dsimp only; norm_num)
  refine ⟨?_, haf, ?_⟩
  · intro v1x v1y v2x v2y m x1x x1y x2x x2y hm hx p q hp hq
    have hM : m + m ≠ 0 := by positivity
    have hpq : p = q := by
      rw [trig_eq_angle_free x1x x1y x2x x2y v1x v1y v2x v2y m m false hM, hp] at hq
      injection hq
    rw [momentum_trigonometry_ok x1x x1y x2x x2y v1x v1y v2x v2y m m hx] at hq
    injection hq with hq'
    subst hq'
    refine ⟨hpq, ?_, ?_, ?_, ?_⟩
    · simp only [trigPair]
      rw [rot_neg_rot]
      dsimp only
      field_simp
      ring
    · simp only [trigPair]
      rw [rot_neg_rot]
      dsimp only
      field_simp
      ring
    · simp only [trigPair]
      rw [rot_neg_rot]
    · simp only [trigPair]
      rw [rot_neg_rot]
  · rw [trig_eq_angle_free 0 0 1.4142 1.4142 0.707 0.707 (-0.707) (-0.707) 1 1 false
      (by norm_num)]
    exact haf

/-- Witness for the universally quantified part of C8 at a concrete
equal-mass input. -/
theorem claim_C8_equal_mass_exchange_witness :
    (0 : ℝ) < 1 ∧ ¬((0 : ℝ) = 1 ∧ (0 : ℝ) = 0) ∧
    (afPair 1 0 0 0 1 1 0 0 1 0 = trigPair 0 0 1 0 1 0 0 0 1 1 ∧
     (rot (-contact_angle 0 0 1 0) (trigPair 0 0 1 0 1 0 0 0 1 1).1).x
       = (rot (-contact_angle 0 0 1 0) ⟨0, 0⟩).x ∧
     (rot (-contact_angle 0 0 1 0) (trigPair 0 0 1 0 1 0 0 0 1 1).2).x
       = (rot (-contact_angle 0 0 1 0) ⟨1, 0⟩).x ∧
     (rot (-contact_angle 0 0 1 0) (trigPair 0 0 1 0 1 0 0 0 1 1).1).y
       = (rot (-contact_angle 0 0 1 0) ⟨1, 0⟩).y ∧
     (rot (-contact_angle 0 0 1 0) (trigPair 0 0 1 0 1 0 0 0 1 1).2).y
       = (rot (-contact_angle 0 0 1 0) ⟨0, 0⟩).y) :=
  ⟨by norm_num, by norm_num,
    claim_C8_equal_mass_exchange.1 1 0 0 0 1 0 0 1 0 (by norm_num) (by norm_num)
      (afPair 1 0 0 0 1 1 0 0 1 0) (trigPair 0 0 1 0 1 0 0 0 1 1)
      (momentum_angle_free_ok 1 0 0 0 1 1 0 0 1 0 (by norm_num))
      (momentum_trigonometry_ok 0 0 1 0 1 0 0 0 1 1 (by norm_num))⟩

/-- C10: the two runtime variants of each resolver return different
result shapes — the reference (Cython) variants a pair of mappings keyed
by axis name `x`/`y`, the compiled C variants a single mapping keyed by
body-role name `v12`/`v21` holding the axis components — and apart from
this shape difference they expose the same velocities. -/
theorem claim_C10_runtime_variant_shapes (v1x v1y v2x v2y m1 m2 x1x x1y x2x x2y : ℝ)
    (invert : Bool) :
    (∀ v : Vec2, (vecToAxisMap v).map Prod.fst = ["x", "y"]) ∧
    (∀ l, momentum_angle_free_c v1x v1y v2x v2y m1 m2 x1x x1y x2x x2y invert
        = Except.ok l → l.map Prod.fst = ["v12", "v21"]) ∧
    (∀ l, momentum_trigonometry_c x1x x1y x2x x2y v1x v1y v2x v2y m1 m2 invert
        = Except.ok l → l.map Prod.fst = ["v12", "v21"]) ∧
    momentum_angle_free_c v1x v1y v2x v2y m1 m2 x1x x1y x2x x2y invert
      = (momentum_angle_free_dicts v1x v1y v2x v2y m1 m2 x1x x1y x2x x2y invert).map
          (fun pr => [("v12", pr.1), ("v21", pr.2)]) ∧
    momentum_trigonometry_c x1x x1y x2x x2y v1x v1y v2x v2y m1 m2 invert
      = (momentum_trigonometry_dicts x1x x1y x2x x2y v1x v1y v2x v2y m1 m2 invert).map
          (fun pr => [("v12", pr.1), ("v21", pr.2)]) := by
  refine ⟨fun v => rfl, ?_, ?_, ?_, ?_⟩
  · intro l hl
    unfold momentum_angle_free_c cShape at hl
    cases hres : momentum_angle_free v1x v1y v2x v2y m1 m2 x1x x1y x2x x2y invert <;>
      rw [hres] at hl <;> simp [Except.map] at hl
    rw [← hl]
    rfl
  · intro l hl
    unfold momentum_trigonometry_c cShape at hl
    cases hres : momentum_trigonometry x1x x1y x2x x2y v1x v1y v2x v2y m1 m2 invert <;>
      rw [hres] at hl <;> simp [Except.map] at hl
    rw [← hl]
    rfl
  · unfold momentum_angle_free_c momentum_angle_free_dicts cShape cythonShape
    cases momentum_angle_free v1x v1y v2x v2y m1 m2 x1x x1y x2x x2y invert <;>
      simp [Except.map]
  · unfold momentum_trigonometry_c momentum_trigonometry_dicts cShape cythonShape
    cases momentum_trigonometry x1x x1y x2x x2y v1x v1y v2x v2y m1 m2 invert <;>
      simp [Except.map]

/-- Witness for C10 at a concrete input. -/
theorem claim_C10_runtime_variant_shapes_witness :
    (∀ v : Vec2, (vecToAxisMap v).map Prod.fst = ["x", "y"]) ∧
    (∀ l, momentum_angle_free_c 1 0 0 0 1 1 0 0 1 0 false
        = Except.ok l → l.map Prod.fst = ["v12", "v21"]) ∧
    (∀ l, momentum_trigonometry_c 0 0 1 0 1 0 0 0 1 1 false
        = Except.ok l → l.map Prod.fst = ["v12", "v21"]) ∧
    momentum_angle_free_c 1 0 0 0 1 1 0 0 1 0 false
      = (momentum_angle_free_dicts 1 0 0 0 1 1 0 0 1 0 false).map
          (fun pr => [("v12", pr.1), ("v21", pr.2)]) ∧
    momentum_trigonometry_c 0 0 1 0 1 0 0 0 1 1 false
      = (momentum_trigonometry_dicts 0 0 1 0 1 0 0 0 1 1 false).map
          (fun pr => [("v12", pr.1), ("v21", pr.2)]) :=
  claim_C10_runtime_variant_shapes 1 0 0 0 1 1 0 0 1 0 false

end ElasticCollision
